import Mathlib

/-!
Shallow embedding of the multi-signal health decision-fusion engine
(`health_monitor.py` together with the risk-window projection of
`risk_predictor.py`).  Vital-sign values are modelled as rationals, a
reading as an association list from vital names to values, and the
heterogeneous scorer-result dictionaries as structures whose optional
fields mirror the dictionary keys the fusion code reads with `.get`.
-/

namespace HealthMonitor

/-- One entry of a stored reading: the vital values together with the
timestamp attached by `_store_health_data`. -/
abbrev Reading := List (String × ℚ)

/-- Alert produced by `_check_immediate_alerts` for one breached vital. -/
structure ThresholdAlert where
  type : String
  vital_sign : String
  current_value : ℚ
  threshold : ℚ
  severity : String
  message : String
  deriving Repr, DecidableEq

/-- The fields of an anomaly-detector result dictionary that the fusion
code reads (each read with a `.get` default, hence optional). -/
structure AnomalyResult where
  is_anomaly : Option Bool
  risk_level : Option String
  confidence : Option ℚ
  recommendations : Option (List String)
  deriving Repr, DecidableEq

/-- The fields of an emergency-classifier result dictionary that the
fusion code reads. -/
structure EmergencyResult where
  predicted_emergency : Option String
  confidence : Option ℚ
  severity : Option String
  recommended_actions : Option (List String)
  deriving Repr, DecidableEq

/-- The fields of a risk-predictor result dictionary that the fusion
code reads. -/
structure RiskResult where
  overall_risk_score : Option ℚ
  risk_level : Option String
  confidence : Option ℚ
  recommendations : Option (List String)
  deriving Repr, DecidableEq

/-- The `overall_status` dictionary built by `_determine_overall_status`. -/
structure OverallStatus where
  level : String
  severity : String
  confidence : ℚ
  primary_concern : Option String
  summary : String
  deriving Repr, DecidableEq

/-- The critical-threshold bounds table of `HealthMonitor.__init__`,
in its dictionary insertion order: (vital, min, max). -/
def critical_thresholds : List (String × ℚ × ℚ) :=
  [(("heart_rate"), 40, 150),
   (("temperature"), 35, 39),
   (("systolic_bp"), 80, 180),
   (("diastolic_bp"), 50, 110),
   (("spo2"), 90, 100),
   (("respiratory_rate"), 8, 30)]

/-- The loop body of `_check_immediate_alerts` for one bounds-table row:
if the vital is present in the reading, emit a critical alert when the
value is strictly below the min or strictly above the max. -/
def check_one (t : String × ℚ × ℚ) (health_data : Reading) : List ThresholdAlert :=
  (health_data.lookup t.1).elim [] (fun value =>
    if value < t.2.1 then
      [{ type := ("critical_low"), vital_sign := t.1, current_value := value,
         threshold := t.2.1, severity := ("critical"),
         message := t.1 ++ (" critically low: ") ++ toString value }]
    else if value > t.2.2 then
      [{ type := ("critical_high"), vital_sign := t.1, current_value := value,
         threshold := t.2.2, severity := ("critical"),
         message := t.1 ++ (" critically high: ") ++ toString value }]
    else [])

/-- `_check_immediate_alerts` generalized over the bounds table. -/
def check_alerts_table (table : List (String × ℚ × ℚ)) (health_data : Reading) :
    List ThresholdAlert :=
  table.flatMap (fun t => check_one t health_data)

/-- `_check_immediate_alerts` against the monitor's critical thresholds. -/
def check_immediate_alerts (health_data : Reading) : List ThresholdAlert :=
  check_alerts_table critical_thresholds health_data

/-- Python `str.replace('_', ' ')`. -/
def replace_underscores (s : String) : String :=
  String.mk (s.data.map (fun c => if c = '_' then ' ' else c))

/-- The `severity_map` lookup of `_determine_overall_status` rule 2,
with its `.get(..., 'medium')` default. -/
def severity_map_get (s : String) : String :=
  (([(("critical"), ("critical")), (("high"), ("high")),
     (("medium"), ("medium")), (("low"), ("low"))] :
      List (String × String)).lookup s).getD ("medium")

/-- The initial (rule 5, default) status of `_determine_overall_status`. -/
def default_status : OverallStatus :=
  { level := ("normal"), severity := ("normal"), confidence := 0.8,
    primary_concern := none,
    summary := ("All vital signs within normal range") }

/-- Rule 4 of `_determine_overall_status`: the risk-prediction check,
falling through to the default status. -/
def status_from_risk (risk_result : Option RiskResult) : OverallStatus :=
  match risk_result with
  | none => default_status
  | some r =>
    let risk_score := r.overall_risk_score.getD 0
    let risk_level := r.risk_level.getD ("minimal")
    if risk_score > 0.6 then
      { level := ("caution"), severity := risk_level,
        confidence := r.confidence.getD 0.7,
        primary_concern := some ("Elevated risk for future health events"),
        summary := ("Increased health risk detected - level: ") ++ risk_level }
    else default_status

/-- Rule 3 of `_determine_overall_status`: the anomaly check, falling
through to rule 4. -/
def status_from_anomaly (anomaly_result : Option AnomalyResult)
    (risk_result : Option RiskResult) : OverallStatus :=
  match anomaly_result with
  | none => status_from_risk risk_result
  | some a =>
    let is_anomaly := a.is_anomaly.getD false
    let risk_level := a.risk_level.getD ("normal")
    if is_anomaly ∧ (risk_level = "high" ∨ risk_level = "critical") then
      { level := ("warning"), severity := risk_level,
        confidence := a.confidence.getD 0.7,
        primary_concern := some ("Abnormal vital sign patterns detected"),
        summary := ("Health anomaly detected - risk level: ") ++ risk_level }
    else status_from_risk risk_result

/-- Rule 2 of `_determine_overall_status`: the emergency-classification
check, falling through to rule 3. -/
def status_from_emergency (anomaly_result : Option AnomalyResult)
    (emergency_result : Option EmergencyResult)
    (risk_result : Option RiskResult) : OverallStatus :=
  match emergency_result with
  | none => status_from_anomaly anomaly_result risk_result
  | some e =>
    let emergency_type := e.predicted_emergency.getD ("normal")
    let confidence := e.confidence.getD 0
    if emergency_type ≠ "normal" ∧ confidence > 0.7 then
      let emergency_severity := e.severity.getD ("medium")
      { level := if emergency_severity = "critical" then ("emergency") else ("warning"),
        severity := severity_map_get emergency_severity,
        confidence := confidence,
        primary_concern :=
          some (("Potential ") ++ replace_underscores emergency_type ++ (" detected")),
        summary := ("Emergency classification: ") ++ emergency_type }
    else status_from_anomaly anomaly_result risk_result

/-- `_determine_overall_status`: resolve all signals into one status in
strict precedence order (threshold > classification > anomaly > risk >
default). -/
def determine_overall_status (immediate_alerts : List ThresholdAlert)
    (anomaly_result : Option AnomalyResult)
    (emergency_result : Option EmergencyResult)
    (risk_result : Option RiskResult) : OverallStatus :=
  if immediate_alerts = [] then
    status_from_emergency anomaly_result emergency_result risk_result
  else
    match immediate_alerts.filter (fun a => a.severity == "critical") with
    | a :: _ =>
      { level := ("emergency"), severity := ("critical"), confidence := 0.95,
        primary_concern := some a.message,
        summary :=
          ("Critical vital signs detected - immediate medical attention required") }
    | [] => status_from_emergency anomaly_result emergency_result risk_result

/-- The duplicate-removal loop of `_combine_analysis_results`: keep the
first occurrence of each string, preserving order. -/
def dedup_first (l : List String) : List String :=
  l.foldl (fun acc r => if r ∈ acc then acc else acc ++ [r]) []

/-- The combined analysis dictionary built by `_combine_analysis_results`
(the fields the fusion contract is about; the per-scorer diagnostic
breakdowns echo their inputs verbatim). -/
structure Analysis where
  current_vitals : Reading
  overall_status : OverallStatus
  immediate_alerts : List ThresholdAlert
  recommendations : List String
  requires_emergency_response : Bool
  confidence_score : ℚ
  deriving Repr, DecidableEq

/-- The recommendation list contributed by an optional scorer result. -/
def recs_of {α : Type} (r : Option α) (f : α → Option (List String)) : List String :=
  match r with
  | none => []
  | some a => (f a).getD []

/-- `_combine_analysis_results`. -/
def combine_analysis_results (health_data : Reading)
    (immediate_alerts : List ThresholdAlert)
    (anomaly_result : Option AnomalyResult)
    (emergency_result : Option EmergencyResult)
    (risk_result : Option RiskResult) : Analysis :=
  let overall_status :=
    determine_overall_status immediate_alerts anomaly_result emergency_result risk_result
  let all_recommendations :=
    (if immediate_alerts = [] then []
     else [("IMMEDIATE MEDICAL ATTENTION REQUIRED")]) ++
    recs_of anomaly_result AnomalyResult.recommendations ++
    recs_of emergency_result EmergencyResult.recommended_actions ++
    recs_of risk_result RiskResult.recommendations
  { current_vitals := health_data,
    overall_status := overall_status,
    immediate_alerts := immediate_alerts,
    recommendations := (dedup_first all_recommendations).take 10,
    requires_emergency_response :=
      overall_status.severity == "critical" || overall_status.severity == "high",
    confidence_score := overall_status.confidence }

/-- The response dictionary returned by `analyze_health_data` (the keys
shared by the success and error shapes; `error` is present only on
failure). -/
structure AnalysisResponse where
  device_id : String
  overall_status : OverallStatus
  immediate_alerts : List ThresholdAlert
  recommendations : List String
  requires_emergency_response : Bool
  confidence_score : ℚ
  analysis_timestamp : String
  ai_models_enabled : Bool
  error : Option String
  deriving Repr, DecidableEq

/-- `_create_error_response`. -/
def create_error_response (device_id : String) (error_message : String)
    (now_iso : String) (ai_enabled : Bool) : AnalysisResponse :=
  { device_id := device_id,
    overall_status :=
      { level := ("error"), severity := ("unknown"), confidence := 0,
        primary_concern := some ("Analysis failed"),
        summary := ("Health analysis error: ") ++ error_message },
    immediate_alerts := [],
    recommendations := [("Contact technical support"), ("Retry health monitoring")],
    requires_emergency_response := false,
    confidence_score := 0,
    analysis_timestamp := now_iso,
    ai_models_enabled := ai_enabled,
    error := some error_message }

/-- The fallible body of `analyze_health_data`: threshold evaluation is
embedded code; each external scorer invocation may raise (modelled as an
`Except` argument), and the first raised exception aborts the body. -/
def analyze_body (health_data : Reading)
    (anomaly_step : Except String (Option AnomalyResult))
    (emergency_step : Except String (Option EmergencyResult))
    (risk_step : Except String (Option RiskResult)) : Except String Analysis :=
  match anomaly_step with
  | .error e => .error e
  | .ok anomaly_result =>
    match emergency_step with
    | .error e => .error e
    | .ok emergency_result =>
      match risk_step with
      | .error e => .error e
      | .ok risk_result =>
        .ok (combine_analysis_results health_data
              (check_immediate_alerts health_data)
              anomaly_result emergency_result risk_result)

/-- `analyze_health_data`: run the body; on success attach the metadata,
on any raised exception return `_create_error_response` instead of
propagating. -/
def analyze_health_data (device_id : String) (health_data : Reading)
    (anomaly_step : Except String (Option AnomalyResult))
    (emergency_step : Except String (Option EmergencyResult))
    (risk_step : Except String (Option RiskResult))
    (start_iso error_iso : String) (ai_enabled : Bool) : AnalysisResponse :=
  match analyze_body health_data anomaly_step emergency_step risk_step with
  | .ok a =>
    { device_id := device_id,
      overall_status := a.overall_status,
      immediate_alerts := a.immediate_alerts,
      recommendations := a.recommendations,
      requires_emergency_response := a.requires_emergency_response,
      confidence_score := a.confidence_score,
      analysis_timestamp := start_iso,
      ai_models_enabled := ai_enabled,
      error := none }
  | .error e => create_error_response device_id e error_iso ai_enabled

/-- A stored history entry: the reading merged with the capture
timestamp, as built by `_store_health_data`. -/
abbrev StoredReading := Reading × String

/-- `_store_health_data` for one device history: append the timestamped
reading, then keep only the last 100 entries. -/
def store_health_data (history : List StoredReading) (health_data : Reading)
    (now_iso : String) : List StoredReading :=
  let h := history ++ [(health_data, now_iso)]
  if h.length > 100 then h.drop (h.length - 100) else h

/-- `EmergencyClassifier._determine_severity`: the severity label the
classifier attaches to a predicted emergency category. -/
def determine_severity (emergency_type : String) (confidence : ℚ) : String :=
  let critical_emergencies : List String :=
    [("cardiac_arrest"), ("stroke"), ("severe_hypotension"), ("respiratory_distress")]
  let high_emergencies : List String :=
    [("severe_hypertension"), ("hyperthermia"), ("hypothermia"), ("seizure")]
  let medium_emergencies : List String :=
    [("fall_detected"), ("medication_reaction")]
  if emergency_type ∈ critical_emergencies ∧ confidence > 0.7 then ("critical")
  else if emergency_type ∈ critical_emergencies ∨
      (emergency_type ∈ high_emergencies ∧ confidence > 0.8) then ("high")
  else if emergency_type ∈ high_emergencies ∨
      (emergency_type ∈ medium_emergencies ∧ confidence > 0.7) then ("medium")
  else if emergency_type ≠ "normal" then ("low")
  else ("normal")

/-- The fixed prediction horizons (in hours) of `RiskPredictor`. -/
def prediction_windows : List ℕ := [1, 6, 12, 24]

/-- `RiskPredictor._determine_risk_level`: categorical level from fixed
score bands. -/
def determine_risk_level (risk_score : ℚ) : String :=
  if risk_score ≥ 0.8 then ("critical")
  else if risk_score ≥ 0.6 then ("high")
  else if risk_score ≥ 0.4 then ("medium")
  else if risk_score ≥ 0.2 then ("low")
  else ("minimal")

/-- One horizon entry of `_calculate_time_predictions`. -/
structure TimePrediction where
  risk_score : ℚ
  risk_level : String
  probability : ℚ
  deriving Repr, DecidableEq

/-- `RiskPredictor._calculate_time_predictions`: scale the base risk by a
linear time factor per horizon, clamp at 0.95, and band each score. -/
def calculate_time_predictions (base_risk : ℚ) : List (String × TimePrediction) :=
  prediction_windows.map (fun (window : ℕ) =>
    let time_factor : ℚ := 1 + ((window : ℚ) / 24) * 0.1
    let windowed_risk := min (0.95 : ℚ) (base_risk * time_factor)
    (toString window ++ ("h"),
     { risk_score := windowed_risk,
       risk_level := determine_risk_level windowed_risk,
       probability := windowed_risk * 100 }))

/-- `HealthMonitor._get_risk_recommendations`. -/
def get_risk_recommendations (risk_level : String) (risk_factors : List String) :
    List String :=
  (if risk_level = "high" then
    [("Immediate medical attention recommended"),
     ("Contact emergency services if symptoms worsen")]
   else if risk_level = "medium" then
    [("Monitor vitals closely"), ("Consider consulting healthcare provider")]
   else []) ++
  (if ("elevated_heart_rate") ∈ risk_factors then
    [("Reduce physical activity and stress")] else []) ++
  (if ("fever_pattern") ∈ risk_factors then
    [("Stay hydrated and monitor temperature")] else []) ++
  (if ("hypertension_risk") ∈ risk_factors then
    [("Reduce sodium intake and monitor blood pressure")] else []) ++
  (if ("respiratory_concern") ∈ risk_factors then
    [("Ensure adequate ventilation and avoid pollutants")] else [])

/-- The result dictionary of `HealthMonitor.predict_health_risks`
(optional fields mirror the keys present in each return shape). -/
structure RiskPrediction where
  overall_risk : String
  risk_score : ℚ
  message : Option String
  risk_factors : Option (List String)
  recommendations : Option (List String)
  prediction_confidence : Option ℚ
  data_points_analyzed : Option ℕ
  deriving Repr, DecidableEq

/-- `HealthMonitor.predict_health_risks`: structured insufficient-data
result below 5 points, otherwise a rule-based risk summary over the last
10 readings. -/
def predict_health_risks (patient_data : List Reading) : RiskPrediction :=
  if patient_data.length < 5 then
    { overall_risk := ("insufficient_data"), risk_score := 0,
      message := some ("Need at least 5 data points for risk prediction"),
      risk_factors := none, recommendations := none,
      prediction_confidence := none, data_points_analyzed := none }
  else
    let last10 := patient_data.drop (patient_data.length - 10)
    let hr_values := last10.map (fun d => (d.lookup ("heartRate")).getD 0)
    let temp_values := last10.map (fun d => (d.lookup ("temperature")).getD 36.5)
    let sys_values := last10.map (fun d => (d.lookup ("bloodPressureSystolic")).getD 120)
    let spo2_values := last10.map (fun d => (d.lookup ("oxygenSaturation")).getD 98)
    let hr_flag := hr_values.any (fun hr => decide (hr > 120))
    let temp_flag := temp_values.any (fun temp => decide (temp > 38))
    let sys_flag := sys_values.any (fun sys => decide (sys > 160))
    let spo2_flag := spo2_values.any (fun spo2 => decide (spo2 < 94))
    let risk_factors :=
      (if hr_flag then [("elevated_heart_rate")] else []) ++
      (if temp_flag then [("fever_pattern")] else []) ++
      (if sys_flag then [("hypertension_risk")] else []) ++
      (if spo2_flag then [("respiratory_concern")] else [])
    let risk_score : ℚ :=
      (if hr_flag then 0.2 else 0) + (if temp_flag then 0.3 else 0) +
      (if sys_flag then 0.4 else 0) + (if spo2_flag then 0.5 else 0)
    let overall_risk :=
      if risk_score ≥ 0.7 then ("high")
      else if risk_score ≥ 0.4 then ("medium")
      else if risk_score ≥ 0.2 then ("low")
      else ("minimal")
    { overall_risk := overall_risk,
      risk_score := min risk_score 1,
      message := none,
      risk_factors := some risk_factors,
      recommendations := some (get_risk_recommendations overall_risk risk_factors),
      prediction_confidence := some 0.75,
      data_points_analyzed := some patient_data.length }

/-- `HealthMonitor._calculate_trend`: direction label for one vital's
value series (last-3 average against first-3 average, ±5% band), mapped
to a quality label (increasing → concerning, decreasing → improving). -/
def calculate_trend (values : List ℚ) : String :=
  if values.length < 2 then ("unknown")
  else
    let recent := values.drop (values.length - 3)
    let older := values.take 3
    let recent_avg := recent.sum / (recent.length : ℚ)
    let older_avg := older.sum / (older.length : ℚ)
    let change_percent :=
      if older_avg ≠ 0 then ((recent_avg - older_avg) / older_avg) * 100 else 0
    if |change_percent| < 5 then ("stable")
    else if change_percent > 0 then ("concerning")
    else ("improving")

/-- The result dictionary of `HealthMonitor.analyze_health_trends`. -/
structure TrendResult where
  status : Option String
  message : Option String
  overall_trajectory : Option String
  vital_trends : List (String × String)
  analysis_period : Option ℕ
  deriving Repr, DecidableEq

/-- `HealthMonitor.analyze_health_trends`: structured insufficient-data
result below 10 points, otherwise per-vital trend directions and an
overall trajectory. -/
def analyze_health_trends (patient_data : List Reading) : TrendResult :=
  if patient_data.length < 10 then
    { status := some ("insufficient_data"),
      message := some ("Need at least 10 data points for trend analysis"),
      overall_trajectory := none, vital_trends := [], analysis_period := none }
  else
    let vitals : List String :=
      [("heartRate"), ("temperature"), ("bloodPressureSystolic"), ("oxygenSaturation")]
    let trends := vitals.filterMap (fun vital =>
      let values := patient_data.filterMap (fun d => d.lookup vital)
      if values.length ≥ 5 then some (vital, calculate_trend values) else none)
    let improving := (trends.filter (fun t => t.2 == "improving")).length
    let declining := (trends.filter (fun t => t.2 == "declining")).length
    let overall_trajectory :=
      if improving > declining then ("improving")
      else if declining > improving then ("declining")
      else ("stable")
    { status := none, message := none,
      overall_trajectory := some overall_trajectory,
      vital_trends := trends,
      analysis_period := some patient_data.length }

/-- `HealthMonitor._analyze_trends` for one vital's collected values:
first-quarter versus last-quarter average with a ±5% band, requiring at
least 5 values. -/
def trend_direction (values : List ℚ) : String :=
  if values.length ≥ 5 then
    let n := values.length
    let first_quarter := if n ≥ 4 then values.take (n / 4) else values.take 1
    let last_quarter := if n ≥ 4 then values.drop (n - (n + 3) / 4)
                        else values.drop (n - 1)
    let avg_first := first_quarter.sum / (first_quarter.length : ℚ)
    let avg_last := last_quarter.sum / (last_quarter.length : ℚ)
    if avg_last > avg_first * 1.05 then ("increasing")
    else if avg_last < avg_first * 0.95 then ("decreasing")
    else ("stable")
  else ("insufficient_data")

/-- `HealthMonitor._analyze_trends`: the per-vital direction map. -/
def analyze_trends (vitals : List (String × List ℚ)) : List (String × String) :=
  vitals.map (fun p => (p.1, trend_direction p.2))

/-- The reading of the threshold scenario: heart_rate 155, temperature
39.2, spo2 89. -/
def scenario_reading : Reading :=
  [(("heart_rate"), 155), (("temperature"), 39.2), (("spo2"), 89)]

theorem lookup_cons_self {β : Type} (k : String) (v : β) (l : List (String × β)) :
    List.lookup k ((k, v) :: l) = some v := by
  simp [List.lookup]

theorem lookup_cons_ne {β : Type} (k a : String) (v : β) (l : List (String × β))
    (h : (k == a) = false) : List.lookup k ((a, v) :: l) = List.lookup k l := by
  simp [List.lookup, h]

theorem dedup_first_go_nodup (l acc : List String) (h : acc.Nodup) :
    (l.foldl (fun acc r => if r ∈ acc then acc else acc ++ [r]) acc).Nodup := by
  induction l generalizing acc with
  | nil => simpa using h
  | cons x xs ih =>
    simp only [List.foldl_cons]
    by_cases hx : x ∈ acc
    · rw [if_pos hx]
      exact ih acc h
    · rw [if_neg hx]
      refine ih _ ?_
      rw [List.nodup_append]
      refine ⟨h, List.nodup_singleton x, ?_⟩
      intro a ha hb
      rw [List.mem_singleton] at hb
      subst hb
      exact hx ha

theorem dedup_first_nodup (l : List String) : (dedup_first l).Nodup :=
  dedup_first_go_nodup l [] (List.nodup_nil)

/-- C1: if the threshold check produced at least one critical
`ThresholdAlert`, the resolved verdict is level=emergency,
severity=critical, confidence=0.95 with the first such alert's message as
primary concern, regardless of any anomaly, classification or risk
signal. -/
theorem c1_critical_alert_short_circuit (alerts : List ThresholdAlert)
    (a : ThresholdAlert) (rest : List ThresholdAlert)
    (ar : Option AnomalyResult) (er : Option EmergencyResult)
    (rr : Option RiskResult)
    (h : alerts.filter (fun x => x.severity == "critical") = a :: rest) :
    determine_overall_status alerts ar er rr =
      { level := ("emergency"), severity := ("critical"), confidence := 0.95,
        primary_concern := some a.message,
        summary :=
          ("Critical vital signs detected - immediate medical attention required") } := by
  have hne : alerts ≠ [] := by
    intro h0
    rw [h0] at h
    simp at h
  unfold determine_overall_status
  rw [if_neg hne, h]

/-- Sample alert used to instantiate `c1_critical_alert_short_circuit`. -/
def c1_sample_alert : ThresholdAlert :=
  { type := ("critical_low"), vital_sign := ("heart_rate"), current_value := 30,
    threshold := 40, severity := ("critical"),
    message := ("heart_rate critically low: 30") }

theorem c1_critical_alert_short_circuit_witness :
    determine_overall_status [c1_sample_alert] none none none =
      { level := ("emergency"), severity := ("critical"), confidence := 0.95,
        primary_concern := some ("heart_rate critically low: 30"),
        summary :=
          ("Critical vital signs detected - immediate medical attention required") } :=
  c1_critical_alert_short_circuit [c1_sample_alert] c1_sample_alert [] none none none
    (by simp [c1_sample_alert])

/-- C2: if any scorer step inside `analyze_health_data` raises, the
function does not propagate the exception: it returns the error response
(level=error, confidence=0.0, primary_concern="Analysis failed", summary
carrying the cause text, timestamped); and every call returns either a
success-shaped response or that error response. -/
theorem c2_analysis_failure_containment (device_id : String) (hd : Reading)
    (astep : Except String (Option AnomalyResult))
    (estep : Except String (Option EmergencyResult))
    (rstep : Except String (Option RiskResult))
    (start_iso error_iso : String) (ai : Bool) :
    (∀ e, analyze_body hd astep estep rstep = .error e →
      analyze_health_data device_id hd astep estep rstep start_iso error_iso ai =
        create_error_response device_id e error_iso ai ∧
      (analyze_health_data device_id hd astep estep rstep start_iso error_iso
          ai).overall_status.level = "error" ∧
      (analyze_health_data device_id hd astep estep rstep start_iso error_iso
          ai).overall_status.confidence = 0 ∧
      (analyze_health_data device_id hd astep estep rstep start_iso error_iso
          ai).overall_status.primary_concern = some ("Analysis failed") ∧
      (analyze_health_data device_id hd astep estep rstep start_iso error_iso
          ai).overall_status.summary = ("Health analysis error: ") ++ e ∧
      (analyze_health_data device_id hd astep estep rstep start_iso error_iso
          ai).analysis_timestamp = error_iso) ∧
    ((analyze_health_data device_id hd astep estep rstep start_iso error_iso
        ai).error = none ∨
      ∃ e, analyze_health_data device_id hd astep estep rstep start_iso error_iso ai =
        create_error_response device_id e error_iso ai) := by
  constructor
  · intro e he
    unfold analyze_health_data
    rw [he]
    exact ⟨rfl, rfl, rfl, rfl, rfl, rfl⟩
  · cases hb : analyze_body hd astep estep rstep with
    | ok a =>
      left
      unfold analyze_health_data
      rw [hb]
    | error e =>
      right
      refine ⟨e, ?_⟩
      unfold analyze_health_data
      rw [hb]

theorem c2_analysis_failure_containment_witness :
    analyze_health_data ("dev") [] (.error ("model failure")) (.ok none) (.ok none)
        ("t0") ("t1") true =
      create_error_response ("dev") ("model failure") ("t1") true ∧
    (analyze_health_data ("dev") [] (.error ("model failure")) (.ok none) (.ok none)
        ("t0") ("t1") true).overall_status.primary_concern =
      some ("Analysis failed") ∧
    (analyze_health_data ("dev") [] (.error ("model failure")) (.ok none) (.ok none)
        ("t0") ("t1") true).overall_status.summary =
      ("Health analysis error: model failure") := by
  have h := (c2_analysis_failure_containment ("dev") [] (.error ("model failure"))
    (.ok none) (.ok none) ("t0") ("t1") true).1 ("model failure") rfl
  exact ⟨h.1, h.2.2.2.1, h.2.2.2.2.1⟩

/-- C5: the returned recommendation list is the deduplicated (first
occurrence kept) concatenation of the fixed immediate-attention line
(present exactly when a threshold alert fired) with the anomaly,
classification and risk recommendation lists in that order, truncated to
10 entries; hence it never exceeds 10 entries and has no duplicates. -/
theorem c5_recommendations (hd : Reading) (alerts : List ThresholdAlert)
    (ar : Option AnomalyResult) (er : Option EmergencyResult)
    (rr : Option RiskResult) :
    (combine_analysis_results hd alerts ar er rr).recommendations =
      (dedup_first
        ((if alerts = [] then [] else [("IMMEDIATE MEDICAL ATTENTION REQUIRED")]) ++
         recs_of ar AnomalyResult.recommendations ++
         recs_of er EmergencyResult.recommended_actions ++
         recs_of rr RiskResult.recommendations)).take 10 ∧
    (combine_analysis_results hd alerts ar er rr).recommendations.length ≤ 10 ∧
    (combine_analysis_results hd alerts ar er rr).recommendations.Nodup := by
  refine ⟨rfl, ?_, ?_⟩
  · exact List.length_take_le 10 _
  · exact List.Nodup.sublist (List.take_sublist 10 _) (dedup_first_nodup _)

/-- C10: the success path sets `requires_emergency_response` exactly when
the resolved severity is critical or high, and the error response always
has `requires_emergency_response` false with an empty immediate-alert
list. -/
theorem c10_emergency_response_flag :
    (∀ (hd : Reading) (alerts : List ThresholdAlert) (ar : Option AnomalyResult)
       (er : Option EmergencyResult) (rr : Option RiskResult),
      ((combine_analysis_results hd alerts ar er rr).requires_emergency_response = true ↔
        ((combine_analysis_results hd alerts ar er rr).overall_status.severity =
            "critical" ∨
         (combine_analysis_results hd alerts ar er rr).overall_status.severity =
            "high"))) ∧
    (∀ (device_id error_message now_iso : String) (ai : Bool),
      (create_error_response device_id error_message now_iso
          ai).requires_emergency_response = false ∧
      (create_error_response device_id error_message now_iso ai).immediate_alerts =
        []) := by
  constructor
  · intro hd alerts ar er rr
    simp [combine_analysis_results]
  · intro device_id error_message now_iso ai
    exact ⟨rfl, rfl⟩

/-- One append step of the history store: starting from a history within
the cap, the result is exactly the last-100 suffix of the extended
sequence. -/
theorem store_health_data_eq (history : List StoredReading) (d : Reading)
    (now_iso : String) (hlen : history.length ≤ 100) :
    store_health_data history d now_iso =
      (history ++ [(d, now_iso)]).drop ((history ++ [(d, now_iso)]).length - 100) := by
  simp only [store_health_data]
  split_ifs with h
  · rfl
  · have h0 : (history ++ [(d, now_iso)]).length - 100 = 0 := by
      simp only [List.length_append, List.length_cons, List.length_nil] at h ⊢
      omega
    rw [h0, List.drop_zero]

set_option maxRecDepth 8000 in
/-- C3: per device, after any sequence of appends the history holds at
most 100 entries, and the retained entries are exactly the most recently
appended ones in insertion order (the last-100 suffix of the appended
sequence). -/
theorem c3_history_capacity (ops : List (Reading × String)) :
    (ops.foldl (fun h p => store_health_data h p.1 p.2) []).length ≤ 100 ∧
    ops.foldl (fun h p => store_health_data h p.1 p.2) [] =
      ops.drop (ops.length - 100) := by
  induction ops using List.reverseRecOn with
  | nil => simp
  | append_singleton xs x ih =>
    obtain ⟨ihl, ihe⟩ := ih
    rw [List.foldl_append, List.foldl_cons, List.foldl_nil, ihe]
    have hs : (xs.drop (xs.length - 100)).length = xs.length - (xs.length - 100) :=
      List.length_drop _ _
    rw [store_health_data_eq (xs.drop (xs.length - 100)) x.1 x.2 (by omega)]
    have hx : ((x.1, x.2) : StoredReading) = x := rfl
    rw [hx]
    constructor
    · rw [List.length_drop]
      simp only [List.length_append, List.length_cons, List.length_nil]
      omega
    · rcases le_or_lt xs.length 99 with hle | hgt
      · have h1 : xs.length - 100 = 0 := by omega
        have h2 : (xs.drop (xs.length - 100) ++ [x]).length - 100 = 0 := by
          simp only [List.length_append, List.length_cons, List.length_nil, hs]
          omega
        have h3 : (xs ++ [x]).length - 100 = 0 := by
          simp only [List.length_append, List.length_cons, List.length_nil]
          omega
        rw [h2, h3, List.drop_zero, List.drop_zero, h1, List.drop_zero]
      · have h2 : (xs.drop (xs.length - 100) ++ [x]).length - 100 = 1 := by
          simp only [List.length_append, List.length_cons, List.length_nil, hs]
          omega
        have h3 : (xs ++ [x]).length - 100 = xs.length - 99 := by
          simp only [List.length_append, List.length_cons, List.length_nil]
          omega
        have h4 : xs.length - 100 + 1 = xs.length - 99 := by omega
        rw [h2, h3,
          List.drop_append_of_le_length (by omega : 1 ≤ (xs.drop (xs.length - 100)).length),
          List.drop_drop, h4,
          List.drop_append_of_le_length (by omega : xs.length - 99 ≤ xs.length)]

/-- For a non-normal category the classifier's severity label is one of
the four keys of the fusion `severity_map`, so the map lookup returns it
unchanged. -/
theorem severity_map_get_determine (emergency_type : String) (confidence : ℚ)
    (h : emergency_type ≠ "normal") :
    severity_map_get (determine_severity emergency_type confidence) =
      determine_severity emergency_type confidence := by
  simp only [determine_severity, if_neg (not_not.mpr h)]
  split_ifs with h1 h2 h3
  · rfl
  · rfl
  · rfl
  · rfl

/-- C4: with no critical threshold alert, a classification signal with a
non-normal category and confidence above 0.7 resolves to level=emergency
exactly when the category's classifier-assigned severity is critical
(warning otherwise), with that severity, the signal's confidence, and a
primary concern naming the category. -/
theorem c4_classification_rule (alerts : List ThresholdAlert)
    (ar : Option AnomalyResult) (rr : Option RiskResult) (er : EmergencyResult)
    (emergency_type : String) (conf : ℚ)
    (hfilter : alerts.filter (fun x => x.severity == "critical") = [])
    (hp : er.predicted_emergency = some emergency_type)
    (hc : er.confidence = some conf)
    (hs : er.severity = some (determine_severity emergency_type conf))
    (hn : emergency_type ≠ "normal") (hconf : conf > 0.7) :
    determine_overall_status alerts ar (some er) rr =
      { level := if determine_severity emergency_type conf = "critical"
                 then ("emergency") else ("warning"),
        severity := determine_severity emergency_type conf,
        confidence := conf,
        primary_concern :=
          some (("Potential ") ++ replace_underscores emergency_type ++ (" detected")),
        summary := ("Emergency classification: ") ++ emergency_type } := by
  have hbase : determine_overall_status alerts ar (some er) rr =
      status_from_emergency ar (some er) rr := by
    unfold determine_overall_status
    by_cases halerts : alerts = []
    · rw [if_pos halerts]
    · rw [if_neg halerts, hfilter]
  rw [hbase]
  simp only [status_from_emergency, hp, hc, hs, Option.getD_some]
  rw [if_pos (⟨hn, hconf⟩ : emergency_type ≠ "normal" ∧ conf > 0.7)]
  rw [severity_map_get_determine emergency_type conf hn]

/-- Classification signal of the cardiac-arrest scenario. -/
def c4_sample_emergency : EmergencyResult :=
  { predicted_emergency := some ("cardiac_arrest"), confidence := some 0.9,
    severity := some (determine_severity ("cardiac_arrest") 0.9),
    recommended_actions := none }

theorem c4_classification_rule_witness :
    (determine_overall_status [] none (some c4_sample_emergency) none).level =
      "emergency" ∧
    (determine_overall_status [] none (some c4_sample_emergency) none).severity =
      "critical" ∧
    (determine_overall_status [] none (some c4_sample_emergency) none).confidence =
      0.9 ∧
    (determine_overall_status [] none (some c4_sample_emergency) none).primary_concern =
      some ("Potential cardiac arrest detected") := by
  have hsev : determine_severity ("cardiac_arrest") 0.9 = "critical" := by
    norm_num [determine_severity]
  have h := c4_classification_rule [] none none c4_sample_emergency
    ("cardiac_arrest") 0.9 rfl rfl rfl rfl (by decide) (by norm_num)
  rw [h]
  have hrepl : replace_underscores ("cardiac_arrest") = "cardiac arrest" := by decide
  refine ⟨by simp [hsev], by simp [hsev], rfl, by simp [hrepl]⟩

/-- The categorical risk level always sits in the band its score falls
into: ≥0.8 critical, ≥0.6 high, ≥0.4 medium, ≥0.2 low, else minimal. -/
theorem determine_risk_level_bands (s : ℚ) :
    (0.8 ≤ s ∧ determine_risk_level s = "critical") ∨
    (0.6 ≤ s ∧ s < 0.8 ∧ determine_risk_level s = "high") ∨
    (0.4 ≤ s ∧ s < 0.6 ∧ determine_risk_level s = "medium") ∨
    (0.2 ≤ s ∧ s < 0.4 ∧ determine_risk_level s = "low") ∨
    (s < 0.2 ∧ determine_risk_level s = "minimal") := by
  unfold determine_risk_level
  split_ifs with h1 h2 h3 h4
  · exact Or.inl ⟨h1, rfl⟩
  · exact Or.inr (Or.inl ⟨h2, not_le.mp h1, rfl⟩)
  · exact Or.inr (Or.inr (Or.inl ⟨h3, not_le.mp h2, rfl⟩))
  · exact Or.inr (Or.inr (Or.inr (Or.inl ⟨h4, not_le.mp h3, rfl⟩)))
  · exact Or.inr (Or.inr (Or.inr (Or.inr ⟨not_le.mp h4, rfl⟩)))

/-- C6: for a base risk score in [0,1] the windower returns predictions
for exactly the horizons 1h/6h/12h/24h, each score is the base scaled by
the linear time factor 1 + (horizon/24)·0.1 clamped at 0.95, the four
scores are non-decreasing in the horizon, and each level follows the
fixed score bands. -/
theorem c6_risk_windower (base_risk : ℚ) (hb0 : 0 ≤ base_risk)
    (hb1 : base_risk ≤ 1) :
    (calculate_time_predictions base_risk).map Prod.fst =
      [("1h"), ("6h"), ("12h"), ("24h")] ∧
    (calculate_time_predictions base_risk).map (fun p => p.2.risk_score) =
      [min 0.95 (base_risk * (1 + ((1:ℚ)/24) * 0.1)),
       min 0.95 (base_risk * (1 + ((6:ℚ)/24) * 0.1)),
       min 0.95 (base_risk * (1 + ((12:ℚ)/24) * 0.1)),
       min 0.95 (base_risk * (1 + ((24:ℚ)/24) * 0.1))] ∧
    List.Chain' (· ≤ ·)
      ((calculate_time_predictions base_risk).map (fun p => p.2.risk_score)) ∧
    ∀ p ∈ calculate_time_predictions base_risk,
      (0.8 ≤ p.2.risk_score ∧ p.2.risk_level = "critical") ∨
      (0.6 ≤ p.2.risk_score ∧ p.2.risk_score < 0.8 ∧ p.2.risk_level = "high") ∨
      (0.4 ≤ p.2.risk_score ∧ p.2.risk_score < 0.6 ∧ p.2.risk_level = "medium") ∨
      (0.2 ≤ p.2.risk_score ∧ p.2.risk_score < 0.4 ∧ p.2.risk_level = "low") ∨
      (p.2.risk_score < 0.2 ∧ p.2.risk_level = "minimal") := by
  have hscores : (calculate_time_predictions base_risk).map (fun p => p.2.risk_score) =
      [min 0.95 (base_risk * (1 + ((1:ℚ)/24) * 0.1)),
       min 0.95 (base_risk * (1 + ((6:ℚ)/24) * 0.1)),
       min 0.95 (base_risk * (1 + ((12:ℚ)/24) * 0.1)),
       min 0.95 (base_risk * (1 + ((24:ℚ)/24) * 0.1))] := by
    simp [calculate_time_predictions, prediction_windows]
  refine ⟨?_, hscores, ?_, ?_⟩
  · simp only [calculate_time_predictions, prediction_windows, List.map_cons,
      List.map_nil]
    decide
  · rw [hscores]
    simp only [List.chain'_cons, List.chain'_singleton, and_true]
    refine ⟨?_, ?_, ?_⟩ <;>
      exact min_le_min (le_refl _) (mul_le_mul_of_nonneg_left (by norm_num) hb0)
  · intro p hp
    simp only [calculate_time_predictions, prediction_windows, List.map_cons,
      List.map_nil, List.mem_cons, List.not_mem_nil, or_false] at hp
    rcases hp with hp | hp | hp | hp <;> rw [hp] <;>
      exact determine_risk_level_bands _

theorem c6_risk_windower_witness :
    (calculate_time_predictions 0.5).map Prod.fst =
      [("1h"), ("6h"), ("12h"), ("24h")] ∧
    List.Chain' (· ≤ ·)
      ((calculate_time_predictions 0.5).map (fun p => p.2.risk_score)) := by
  have h := c6_risk_windower 0.5 (by norm_num) (by norm_num)
  exact ⟨h.1, h.2.2.1⟩

/-- C7: risk prediction over fewer than 5 points returns the structured
insufficient-data result (overall_risk insufficient_data, risk_score 0)
and succeeds with 5 or more; trend analysis over fewer than 10 points
returns a structured insufficient-data result and succeeds with 10 or
more; both are total functions, never exceptions. -/
theorem c7_insufficient_data_handling :
    (∀ pd : List Reading, pd.length < 5 →
      predict_health_risks pd =
        { overall_risk := ("insufficient_data"), risk_score := 0,
          message := some ("Need at least 5 data points for risk prediction"),
          risk_factors := none, recommendations := none,
          prediction_confidence := none, data_points_analyzed := none }) ∧
    (∀ pd : List Reading, 5 ≤ pd.length →
      ((predict_health_risks pd).overall_risk = "high" ∨
       (predict_health_risks pd).overall_risk = "medium" ∨
       (predict_health_risks pd).overall_risk = "low" ∨
       (predict_health_risks pd).overall_risk = "minimal") ∧
      (predict_health_risks pd).message = none ∧
      (predict_health_risks pd).data_points_analyzed = some pd.length) ∧
    (∀ pd : List Reading, pd.length < 10 →
      (analyze_health_trends pd).status = some ("insufficient_data") ∧
      (analyze_health_trends pd).overall_trajectory = none) ∧
    (∀ pd : List Reading, 10 ≤ pd.length →
      (analyze_health_trends pd).status = none ∧
      (analyze_health_trends pd).overall_trajectory ≠ none) := by
  refine ⟨?_, ?_, ?_, ?_⟩
  · intro pd h
    unfold predict_health_risks
    rw [if_pos h]
  · intro pd h
    have hlt : ¬ (pd.length < 5) := by omega
    simp only [predict_health_risks, if_neg hlt]
    refine ⟨?_, by trivial, by trivial⟩
    split_ifs <;> simp
  · intro pd h
    unfold analyze_health_trends
    rw [if_pos h]
    simp
  · intro pd h
    have hlt : ¬ (pd.length < 10) := by omega
    simp only [analyze_health_trends, if_neg hlt]
    simp

theorem c7_insufficient_data_handling_witness :
    predict_health_risks (List.replicate 4 []) =
      { overall_risk := ("insufficient_data"), risk_score := 0,
        message := some ("Need at least 5 data points for risk prediction"),
        risk_factors := none, recommendations := none,
        prediction_confidence := none, data_points_analyzed := none } ∧
    (predict_health_risks (List.replicate 5 [])).message = none ∧
    (analyze_health_trends (List.replicate 9 [])).status =
      some ("insufficient_data") ∧
    (analyze_health_trends (List.replicate 10 [])).status = none := by
  have h := c7_insufficient_data_handling
  exact ⟨h.1 _ (by simp), (h.2.1 _ (by simp)).2.1,
    (h.2.2.1 _ (by simp)).1, (h.2.2.2 _ (by simp)).1⟩

/-- The first quarter of a value series as sliced by `_analyze_trends`
for series of length at least 4. -/
def first_quarter (values : List ℚ) : List ℚ :=
  values.take (values.length / 4)

/-- The last quarter of a value series as sliced by `_analyze_trends`
for series of length at least 4 (Python `values[-len//4:]`, i.e. the
last ⌈len/4⌉ entries). -/
def last_quarter (values : List ℚ) : List ℚ :=
  values.drop (values.length - (values.length + 3) / 4)

/-- Mean of a quarter slice. -/
def quarter_avg (l : List ℚ) : ℚ := l.sum / (l.length : ℚ)

/-- C8: a vital with fewer than 5 values gets direction
insufficient_data; with 5 or more, the direction is increasing exactly
when the last-quarter mean exceeds the first-quarter mean by more than
5%, decreasing exactly when it is more than 5% below, stable otherwise,
and both quarters hold at least one sample. -/
theorem c8_trend_direction_classification :
    (∀ values : List ℚ, values.length < 5 →
      trend_direction values = "insufficient_data") ∧
    (∀ values : List ℚ, 5 ≤ values.length →
      first_quarter values ≠ [] ∧
      last_quarter values ≠ [] ∧
      (trend_direction values = "increasing" ↔
        quarter_avg (last_quarter values) >
          quarter_avg (first_quarter values) * 1.05) ∧
      (trend_direction values = "decreasing" ↔
        ¬ (quarter_avg (last_quarter values) >
            quarter_avg (first_quarter values) * 1.05) ∧
        quarter_avg (last_quarter values) <
          quarter_avg (first_quarter values) * 0.95) ∧
      (trend_direction values = "stable" ↔
        ¬ (quarter_avg (last_quarter values) >
            quarter_avg (first_quarter values) * 1.05) ∧
        ¬ (quarter_avg (last_quarter values) <
            quarter_avg (first_quarter values) * 0.95))) := by
  constructor
  · intro values h
    unfold trend_direction
    rw [if_neg (by omega)]
  · intro values h
    have h4 : values.length ≥ 4 := by omega
    have hf : first_quarter values ≠ [] := by
      apply List.ne_nil_of_length_pos
      unfold first_quarter
      rw [List.length_take]
      omega
    have hl : last_quarter values ≠ [] := by
      apply List.ne_nil_of_length_pos
      unfold last_quarter
      rw [List.length_drop]
      omega
    refine ⟨hf, hl, ?_⟩
    simp only [trend_direction, if_pos h, if_pos h4, first_quarter, last_quarter,
      quarter_avg]
    split_ifs with hinc hdec
    · exact ⟨iff_of_true rfl hinc,
        iff_of_false (by decide) (fun hx => hx.1 hinc),
        iff_of_false (by decide) (fun hx => hx.1 hinc)⟩
    · exact ⟨iff_of_false (by decide) hinc,
        iff_of_true rfl ⟨hinc, hdec⟩,
        iff_of_false (by decide) (fun hx => hx.2 hdec)⟩
    · exact ⟨iff_of_false (by decide) hinc,
        iff_of_false (by decide) (fun hx => hdec hx.2),
        iff_of_true rfl ⟨hinc, hdec⟩⟩

theorem c8_trend_direction_classification_witness :
    trend_direction [1, 1, 1, 1, 2] = "increasing" ∧
    trend_direction [1, 1] = "insufficient_data" := by
  have h := c8_trend_direction_classification
  refine ⟨((h.2 [1, 1, 1, 1, 2] (by norm_num)).2.2.1).mpr ?_,
    h.1 [1, 1] (by norm_num)⟩
  norm_num [first_quarter, last_quarter, quarter_avg, List.take, List.drop]

/-- A bounds-table row whose vital differs from `v` contributes no alert
for `v`. -/
theorem countP_check_one_ne (t : String × ℚ × ℚ) (hd : Reading) (v : String)
    (hne : t.1 ≠ v) :
    (check_one t hd).countP (fun a => a.vital_sign == v) = 0 := by
  unfold check_one
  cases hd.lookup t.1 with
  | none => rfl
  | some value =>
    simp only [Option.elim_some]
    split_ifs <;> simp [List.countP_cons, hne]

/-- The row for vital `v` contributes exactly one alert when the looked-up
value breaches a bound, and none otherwise. -/
theorem countP_check_one_eq (v : String) (mn mx value : ℚ) (hd : Reading)
    (hlook : hd.lookup v = some value) :
    (check_one (v, mn, mx) hd).countP (fun a => a.vital_sign == v) =
      if value < mn ∨ value > mx then 1 else 0 := by
  simp only [check_one]
  rw [hlook]
  simp only [Option.elim_some]
  split_ifs with h1 h2 h3 h4 h5 <;>
    first
      | (exfalso ; tauto)
      | simp [List.countP_cons]
      | rfl

/-- Unfolding equation: the alert list of a cons table is the head row's
alerts followed by the rest's. -/
theorem check_alerts_table_cons (t : String × ℚ × ℚ)
    (ts : List (String × ℚ × ℚ)) (hd : Reading) :
    check_alerts_table (t :: ts) hd = check_one t hd ++ check_alerts_table ts hd := by
  simp [check_alerts_table]

/-- A vital absent from the table keys never gets an alert. -/
theorem countP_check_alerts_not_mem (table : List (String × ℚ × ℚ))
    (hd : Reading) (v : String) (hv : v ∉ table.map Prod.fst) :
    (check_alerts_table table hd).countP (fun a => a.vital_sign == v) = 0 := by
  induction table with
  | nil => rfl
  | cons t ts ih =>
    simp only [List.map_cons, List.mem_cons, not_or] at hv
    obtain ⟨hne, hrest⟩ := hv
    rw [check_alerts_table_cons, List.countP_append,
      countP_check_one_ne t hd v (fun h => hne h.symm), ih hrest]

/-- Per vital present in both the reading and the bounds table, the
threshold evaluator emits exactly one alert iff the value breaches a
bound. -/
theorem countP_check_alerts (table : List (String × ℚ × ℚ)) (hd : Reading)
    (v : String) (mn mx value : ℚ)
    (hmem : (v, mn, mx) ∈ table)
    (hnd : (table.map Prod.fst).Nodup)
    (hlook : hd.lookup v = some value) :
    (check_alerts_table table hd).countP (fun a => a.vital_sign == v) =
      if value < mn ∨ value > mx then 1 else 0 := by
  induction table with
  | nil => simp at hmem
  | cons t ts ih =>
    simp only [List.map_cons, List.nodup_cons] at hnd
    obtain ⟨hts, hndts⟩ := hnd
    rw [check_alerts_table_cons, List.countP_append]
    rcases List.mem_cons.mp hmem with heq | hmemts
    · have hvts : v ∉ ts.map Prod.fst := by
        rw [← heq] at hts
        exact hts
      rw [countP_check_alerts_not_mem ts hd v hvts, Nat.add_zero, ← heq,
        countP_check_one_eq v mn mx value hd hlook]
    · have hvts : v ∈ ts.map Prod.fst := by
        refine List.mem_map.mpr ⟨(v, mn, mx), hmemts, rfl⟩
      have hne : t.1 ≠ v := fun h => hts (h ▸ hvts)
      rw [countP_check_one_ne t hd v hne, ih hmemts hndts, Nat.zero_add]

/-- Every alert emitted by the threshold evaluator carries severity
critical. -/
theorem check_alerts_severity (table : List (String × ℚ × ℚ)) (hd : Reading) :
    ∀ a ∈ check_alerts_table table hd, a.severity = "critical" := by
  intro a ha
  unfold check_alerts_table at ha
  rw [List.mem_flatMap] at ha
  obtain ⟨t, _, hat⟩ := ha
  unfold check_one at hat
  cases hl : hd.lookup t.1 with
  | none =>
    rw [hl] at hat
    simp at hat
  | some value =>
    rw [hl] at hat
    simp only [Option.elim_some] at hat
    split_ifs at hat <;> simp at hat <;> rw [hat]

/-- C9 counterexample: the scenario reading {heart_rate=155,
temperature=39.2, spo2=89} yields three threshold alerts, not two as the
claim states. -/
theorem c9_counterexample_scenario_alert_count :
    (check_immediate_alerts scenario_reading).length ≠ 2 ∧
    (check_immediate_alerts scenario_reading).length = 3 := by
  have h : (check_immediate_alerts scenario_reading).length = 3 := by
    simp [check_immediate_alerts, check_alerts_table, critical_thresholds,
      check_one, scenario_reading, lookup_cons_self, lookup_cons_ne] <;> norm_num
  exact ⟨by rw [h] ; decide, h⟩

/-- C9 amended: threshold evaluation emits, per vital present in both the
reading and the bounds table, one critical alert exactly when the value
is strictly below the min or strictly above the max; the scenario reading
{heart_rate=155, temperature=39.2, spo2=89} yields exactly three alerts
(heart_rate above-max, temperature above-max, spo2 below-min) and the
fused verdict has level=emergency. -/
theorem c9_amended_threshold_scenario :
    (∀ (hd : Reading) (v : String) (mn mx value : ℚ),
      (v, mn, mx) ∈ critical_thresholds →
      hd.lookup v = some value →
      (check_immediate_alerts hd).countP (fun a => a.vital_sign == v) =
        (if value < mn ∨ value > mx then 1 else 0)) ∧
    (∀ (hd : Reading), ∀ a ∈ check_immediate_alerts hd,
      a.severity = "critical") ∧
    (check_immediate_alerts scenario_reading).map (fun a => (a.type, a.vital_sign)) =
      [(("critical_high"), ("heart_rate")), (("critical_high"), ("temperature")),
       (("critical_low"), ("spo2"))] ∧
    (determine_overall_status (check_immediate_alerts scenario_reading)
        none none none).level = "emergency" := by
  refine ⟨?_, ?_, ?_, ?_⟩
  · intro hd v mn mx value hmem hlook
    exact countP_check_alerts critical_thresholds hd v mn mx value hmem
      (by decide) hlook
  · intro hd
    exact check_alerts_severity critical_thresholds hd
  · simp [check_immediate_alerts, check_alerts_table, critical_thresholds,
      check_one, scenario_reading, lookup_cons_self, lookup_cons_ne] <;> norm_num
  · simp [determine_overall_status, check_immediate_alerts, check_alerts_table,
      critical_thresholds, check_one, scenario_reading, lookup_cons_self,
      lookup_cons_ne] <;> norm_num

theorem c9_amended_threshold_scenario_witness :
    (check_immediate_alerts scenario_reading).countP
      (fun a => a.vital_sign == ("heart_rate")) = 1 := by
  have h := c9_amended_threshold_scenario.1 scenario_reading ("heart_rate")
    40 150 155 (by decide) (by rfl)
  rw [h]
  norm_num

end HealthMonitor
